import Mathlib

/-!
Shallow embedding of `src/homework.py` (a Telegram homework-status bot):
Python values are modelled by `PyVal`, raised exceptions by `PyError`,
fallible functions by `Except PyError _`.  External effects (the HTTP fetch,
the Telegram send) are modelled by explicit outcome inputs; the main loop
body is modelled as a state-transition function `main_iteration`.
-/

namespace HomeworkBot

/-- A Python value as it can occur in the bot's payloads: `None`, an int,
a str, a list, or a dict with string keys (JSON-shaped data). -/
inductive PyVal where
  | none
  | int (n : Int)
  | str (s : String)
  | list (xs : List PyVal)
  | dict (kvs : List (String × PyVal))

/-- The exception classes raised in `homework.py`, each carrying the message
it was constructed with.  (`jsonDecodeError` models the `raise
JSONDecodeError(msg)` at line 67; in CPython that constructor call itself
fails with a TypeError for missing arguments, but either way an exception
leaves `get_api_answer`, which is all the embedding needs.
`connectionError` models the network-failure path of `get_api_answer`:
whether the dead `except ConnectionError` re-raise fires or the original
`requests` exception propagates, an exception leaves the function.) -/
inductive PyError where
  | typeError (msg : String)
  | keyError (msg : String)
  | jsonDecodeError (msg : String)
  | notFoundError (msg : String)
  | requestException (msg : String)
  | connectionError (msg : String)
deriving DecidableEq

/-- First-match association lookup on a dict's entries (`k in d` / `d[k]`
semantics for the dicts the bot sees, whose keys are unique). -/
def dict_find : List (String × PyVal) → String → Option PyVal
  | [], _ => Option.none
  | (k, v) :: t, key => if key = k then some v else dict_find t key

/-- Python `d.get(key)`: the stored value when the key is present (which may
itself be `None`), and `None` when absent. -/
def dict_get (kvs : List (String × PyVal)) (key : String) : PyVal :=
  (dict_find kvs key).getD PyVal.none

/-- Python `d.get(key, default)`. -/
def dict_getD (kvs : List (String × PyVal)) (key : String) (d : PyVal) : PyVal :=
  (dict_find kvs key).getD d

mutual
/-- Python `repr` of a payload value (as far as the bot's strings need it). -/
def py_repr : PyVal → String
  | PyVal.none => "None"
  | PyVal.int n => toString n
  | PyVal.str s => "\x27" ++ s ++ "\x27"
  | PyVal.list xs => "[" ++ py_repr_list xs ++ "]"
  | PyVal.dict kvs => "\x7b" ++ py_repr_dict kvs ++ "\x7d"

def py_repr_list : List PyVal → String
  | [] => ""
  | [x] => py_repr x
  | x :: y :: t => py_repr x ++ ", " ++ py_repr_list (y :: t)

def py_repr_dict : List (String × PyVal) → String
  | [] => ""
  | [(k, v)] => "\x27" ++ k ++ "\x27: " ++ py_repr v
  | (k, v) :: p :: t => "\x27" ++ k ++ "\x27: " ++ py_repr v ++ ", " ++ py_repr_dict (p :: t)
end

/-- Python `str` of a payload value, as used when a value is interpolated
into an f-string: a str renders as itself, everything else as its repr
(`None` renders as `"None"`). -/
def py_str : PyVal → String
  | PyVal.str s => s
  | v => py_repr v

/-- `HOMEWORK_STATUSES` (lines 27-31): the fixed verdict table. -/
def HOMEWORK_STATUSES : List (String × String) :=
  [("approved", "Работа проверена: ревьюеру всё понравилось. Ура!"),
   ("reviewing", "Работа взята на проверку ревьюером."),
   ("rejected", "Работа проверена: у ревьюера есть замечания.")]

/-- Lookup in the verdict table by string key. -/
def verdict_find : List (String × String) → String → Option String
  | [], _ => Option.none
  | (k, v) :: t, key => if key = k then some v else verdict_find t key

/-- `HOMEWORK_STATUSES.get(key)` where `key` is the arbitrary value found
under `"status"`: a str is looked up, an unhashable value (list/dict) raises
a TypeError, and any other hashable non-str value is simply not found. -/
def homework_statuses_get (key : PyVal) : Except PyError (Option String) :=
  match key with
  | PyVal.list _ => Except.error (PyError.typeError "unhashable type: \x27list\x27")
  | PyVal.dict _ => Except.error (PyError.typeError "unhashable type: \x27dict\x27")
  | PyVal.str s => Except.ok (verdict_find HOMEWORK_STATUSES s)
  | _ => Except.ok Option.none

/-- `parse_status` (lines 95-112).  For a dict, `homework.get('homework_name')`
cannot raise, so the two `except` clauses (whose guard expressions are the
booleans `type(homework) != dict` and `homework_name is None`) can never
fire; the verdict is looked up for `homework.get('status')`, a missing
verdict raises the undocumented-status KeyError, and otherwise the f-string
message is returned.  For a non-dict, `.get` raises AttributeError and
evaluating the first `except` guard (the boolean `True`) makes CPython raise
a TypeError for catching a non-exception class. -/
def parse_status (homework : PyVal) : Except PyError String :=
  match homework with
  | PyVal.dict kvs =>
      let homework_name := dict_get kvs "homework_name"
      match homework_statuses_get (dict_get kvs "status") with
      | Except.error e => Except.error e
      | Except.ok Option.none =>
          Except.error (PyError.keyError "Недокументированный статус домашней работы.")
      | Except.ok (some verdict) =>
          Except.ok ("Изменился статус проверки работы \"" ++ py_str homework_name
            ++ "\". " ++ verdict)
  | _ =>
      Except.error (PyError.typeError
        "catching classes that do not inherit from BaseException is not allowed")

/-- `check_response` (lines 80-92): a non-dict payload raises a TypeError;
then `response.get('homeworks')` must be a list (a missing key yields `None`,
which is not a list) or a TypeError is raised; otherwise the list is
returned. -/
def check_response (response : PyVal) : Except PyError (List PyVal) :=
  match response with
  | PyVal.dict kvs =>
      match dict_get kvs "homeworks" with
      | PyVal.list homework_list => Except.ok homework_list
      | _ => Except.error (PyError.typeError "По ключу homeworks данные пришли не в виде list.")
  | _ => Except.error (PyError.typeError "API прислал данные не в виде dict.")

/-- What the HTTP round-trip of one fetch produces, as seen by
`get_api_answer`: either `requests.get` raised (no response), or a response
with a status code and a body that did or did not parse as JSON. -/
inductive HttpOutcome where
  | networkFailure
  | response (status_code : Nat) (body : Except Unit PyVal)

/-- `ENDPOINT` (line 23). -/
def ENDPOINT : String := "https://practicum.yandex.ru/api/user_api/homework_statuses/"

/-- `get_api_answer` (lines 52-77): on HTTP 200 the parsed JSON body is
returned, or an exception is raised if the body does not parse; HTTP 404
raises a NotFoundError naming the endpoint; any other status raises a
RequestException with the status code; a network-level failure raises
(whether the `except ConnectionError` branch fires or the original
exception propagates past it). -/
def get_api_answer (o : HttpOutcome) : Except PyError PyVal :=
  match o with
  | HttpOutcome.networkFailure =>
      Except.error (PyError.connectionError "Не удалось получить ответ от API")
  | HttpOutcome.response status_code body =>
      if status_code = 200 then
        match body with
        | Except.ok v => Except.ok v
        | Except.error _ =>
            Except.error (PyError.jsonDecodeError
              "Не удалось преобразовать JSON-ответ к типу данных Python")
      else if status_code = 404 then
        Except.error (PyError.notFoundError
          ("Произошел сбой: эндпоинт " ++ ENDPOINT ++ " недоступен. "
            ++ "Код ответа API: " ++ toString status_code))
      else
        Except.error (PyError.requestException
          ("Cбой при запросе к эндпоинту " ++ ENDPOINT ++ ". "
            ++ "Код ответа API: " ++ toString status_code))

/-- The three module-level credentials as read by `os.getenv` at startup:
`None` when the variable is unset, otherwise its (possibly empty) string
value. -/
structure Env where
  PRACTICUM_TOKEN : Option String
  TELEGRAM_TOKEN : Option String
  TELEGRAM_CHAT_ID : Option String
deriving DecidableEq

/-- The `missing_tokens` list built by `check_tokens` (lines 115-125): the
names, in order, of the credentials whose value `is None`. -/
def missing_tokens (env : Env) : List String :=
  (if env.PRACTICUM_TOKEN = Option.none then ["PRACTICUM_TOKEN"] else [])
    ++ (if env.TELEGRAM_TOKEN = Option.none then ["TELEGRAM_TOKEN"] else [])
    ++ (if env.TELEGRAM_CHAT_ID = Option.none then ["TELEGRAM_CHAT_ID"] else [])

/-- `check_tokens` (lines 115-125): False iff `missing_tokens` is nonempty. -/
def check_tokens (env : Env) : Bool :=
  if (missing_tokens env).length ≠ 0 then false else true

/-- How far `main` (lines 128-136) gets at startup: either the credential
check fails and `t.error.InvalidToken` is raised after a critical log naming
the missing variables, or the polling loop is entered. -/
inductive StartupResult where
  | fatal (missing : List String)
  | loopStarted
deriving DecidableEq

/-- The startup portion of `main` (lines 128-139): raise a fatal error when
`check_tokens` fails, otherwise start the loop. -/
def main_startup (env : Env) : StartupResult :=
  if check_tokens env then StartupResult.loopStarted
  else StartupResult.fatal (missing_tokens env)

/-- Whether the underlying `bot.send_message` call delivers or raises. -/
inductive SendOutcome where
  | delivered
  | failed (err : String)

/-- A log line: its level and message. -/
inductive LogLevel where
  | debug
  | info
  | error
  | critical
deriving DecidableEq

structure LogEntry where
  level : LogLevel
  msg : String
deriving DecidableEq

/-- `send_message` (lines 43-49): the Telegram call is wrapped in
`try/except Exception`, so a delivery failure is logged at error level and
swallowed; the function returns normally (never `Except.error`) either
way. -/
def send_message (message : String) (o : SendOutcome) : Except PyError LogEntry :=
  match o with
  | SendOutcome.delivered =>
      Except.ok ⟨LogLevel.info, "Бот отправил в Telegram сообщение: " ++ message ++ "."⟩
  | SendOutcome.failed err =>
      Except.ok ⟨LogLevel.error, "Не удалось отправить сообщение: " ++ err ++ "."⟩

/-- Python `str(error)` for each modelled exception: a KeyError renders as
the repr of its argument (in quotes), the others as their message.  (For the
third-party NotFoundError/RequestException classes this is the message-level
approximation; no claim inspects those strings beyond their existence.) -/
def py_str_exc : PyError → String
  | PyError.typeError m => m
  | PyError.keyError m => "\x27" ++ m ++ "\x27"
  | PyError.jsonDecodeError m => m
  | PyError.notFoundError m => m
  | PyError.requestException m => m
  | PyError.connectionError m => m

/-- The guard `error != msg_error` (line 151) compares a just-caught
exception instance with a str.  Neither class defines a cross-type `__eq__`,
so CPython falls back to identity comparison, and an exception instance is
never the same object as a str: the `!=` is always True. -/
def exc_ne_str (_e : PyError) (_msg_error : String) : Bool := true

/-- The `for homework in homework_list` body (lines 146-148): each record's
message is parsed and sent in order; the first `parse_status` failure aborts
the loop with the messages already sent and the exception. -/
def process_homeworks : List PyVal → Except (List String × PyError) (List String)
  | [] => Except.ok []
  | h :: t =>
      match parse_status h with
      | Except.error e => Except.error ([], e)
      | Except.ok m =>
          match process_homeworks t with
          | Except.ok ms => Except.ok (m :: ms)
          | Except.error (ms, e) => Except.error (m :: ms, e)

/-- The loop-carried state of `main` (lines 137-138): the poll cursor
`current_timestamp` (an int at startup, thereafter whatever the payload's
`current_date` held) and `msg_error` (initialized to the empty string and
never reassigned anywhere in the loop). -/
structure IterState where
  current_timestamp : PyVal
  msg_error : String

/-- What one iteration of the `while True` body produces. -/
structure IterOutput where
  state : IterState
  /-- the messages passed to `send_message`, in order -/
  sent : List String
  /-- whether `logger.debug('Статус проверки не обновлялся.')` ran -/
  debug_logged : Bool
  /-- the exception caught at the `except Exception` boundary, if any -/
  caught : Option PyError

/-- One iteration of the `while True` body (lines 139-154): fetch, validate,
parse-and-send each record, then update `current_timestamp` from the
payload's `current_date` (defaulting to the old value); any exception from
those steps is caught at the iteration boundary, where the
`error != msg_error` guard decides whether a failure notification is sent.
`send_message` never raises, so a send failure cannot alter control flow and
the send outcomes are not part of the state. -/
def main_iteration (st : IterState) (o : HttpOutcome) : IterOutput :=
  match get_api_answer o with
  | Except.error e =>
      ⟨st,
       if exc_ne_str e st.msg_error then ["Произошел сбой: " ++ py_str_exc e] else [],
       false, some e⟩
  | Except.ok response =>
      match check_response response with
      | Except.error e =>
          ⟨st,
           if exc_ne_str e st.msg_error then ["Произошел сбой: " ++ py_str_exc e] else [],
           false, some e⟩
      | Except.ok homework_list =>
          match process_homeworks homework_list with
          | Except.ok msgs =>
              ⟨⟨(match response with
                 | PyVal.dict kvs => dict_getD kvs "current_date" st.current_timestamp
                 | _ => st.current_timestamp),
                st.msg_error⟩,
               msgs, homework_list.length = 0, Option.none⟩
          | Except.error (msgs, e) =>
              ⟨st,
               msgs ++ (if exc_ne_str e st.msg_error
                        then ["Произошел сбой: " ++ py_str_exc e] else []),
               false, some e⟩

/-- Whether a modelled call raised (`Except.error`) rather than returned. -/
def is_error {α : Type} : Except PyError α → Bool
  | Except.error _ => true
  | Except.ok _ => false

/-- `process_homeworks` succeeds with exactly one message per record. -/
theorem process_homeworks_ok_length (hl : List PyVal) (ms : List String)
    (h : process_homeworks hl = Except.ok ms) : ms.length = hl.length := by
  induction hl generalizing ms with
  | nil =>
      simp only [process_homeworks, Except.ok.injEq] at h
      simp [← h]
  | cons x t ih =>
      unfold process_homeworks at h
      cases hp : parse_status x with
      | error e => rw [hp] at h; exact absurd h (by simp)
      | ok m =>
          rw [hp] at h
          cases hr : process_homeworks t with
          | ok ms2 =>
              rw [hr] at h
              simp only [Except.ok.injEq] at h
              simp [← h, ih ms2 hr]
          | error p => rw [hr] at h; exact absurd h (by simp)

/-- C2: a homework record (a dict) whose status string is outside
{approved, reviewing, rejected} makes `parse_status` raise the
undocumented-status KeyError instead of returning a message, and in the
notification loop such a record contributes no sent message. -/
theorem C2_undocumented_status_raises (kvs : List (String × PyVal)) (s : String)
    (hs : dict_get kvs "status" = PyVal.str s)
    (h1 : s ≠ "approved") (h2 : s ≠ "reviewing") (h3 : s ≠ "rejected") :
    parse_status (PyVal.dict kvs) =
      Except.error (PyError.keyError "Недокументированный статус домашней работы.") ∧
    ∀ t, process_homeworks (PyVal.dict kvs :: t) =
      Except.error ([], PyError.keyError "Недокументированный статус домашней работы.") := by
  have hv : verdict_find HOMEWORK_STATUSES s = Option.none := by
    simp [HOMEWORK_STATUSES, verdict_find, h1, h2, h3]
  have hps : parse_status (PyVal.dict kvs) =
      Except.error (PyError.keyError "Недокументированный статус домашней работы.") := by
    simp [parse_status, hs, homework_statuses_get, hv]
  exact ⟨hps, fun t => by simp [process_homeworks, hps]⟩

/-- C2 witness: the record `{"homework_name": "hw2", "status": "pending"}`. -/
theorem C2_witness :
    parse_status (PyVal.dict
        [("homework_name", PyVal.str "hw2"), ("status", PyVal.str "pending")]) =
      Except.error (PyError.keyError "Недокументированный статус домашней работы.") ∧
    process_homeworks [PyVal.dict
        [("homework_name", PyVal.str "hw2"), ("status", PyVal.str "pending")]] =
      Except.error ([], PyError.keyError "Недокументированный статус домашней работы.") :=
  ⟨(C2_undocumented_status_raises
      [("homework_name", PyVal.str "hw2"), ("status", PyVal.str "pending")] "pending"
      rfl (by decide) (by decide) (by decide)).1,
   (C2_undocumented_status_raises
      [("homework_name", PyVal.str "hw2"), ("status", PyVal.str "pending")] "pending"
      rfl (by decide) (by decide) (by decide)).2 []⟩

/-- C6: for a dict record with a string `homework_name` and a status found
in the verdict table, `parse_status` returns the message composed of the
name and the looked-up verdict, and the table maps approved/reviewing/
rejected to the completion/pending-review/revision-needed verdicts. -/
theorem C6_message_composition (kvs : List (String × PyVal)) (name s verdict : String)
    (hn : dict_get kvs "homework_name" = PyVal.str name)
    (hs : dict_get kvs "status" = PyVal.str s)
    (hv : verdict_find HOMEWORK_STATUSES s = some verdict) :
    parse_status (PyVal.dict kvs) =
      Except.ok ("Изменился статус проверки работы \"" ++ name ++ "\". " ++ verdict) ∧
    verdict_find HOMEWORK_STATUSES "approved" =
      some "Работа проверена: ревьюеру всё понравилось. Ура!" ∧
    verdict_find HOMEWORK_STATUSES "reviewing" =
      some "Работа взята на проверку ревьюером." ∧
    verdict_find HOMEWORK_STATUSES "rejected" =
      some "Работа проверена: у ревьюера есть замечания." := by
  refine ⟨?_, rfl, rfl, rfl⟩
  simp [parse_status, hn, hs, homework_statuses_get, hv, py_str]

/-- C6 witness: the record `{"homework_name": "hw1", "status": "approved"}`. -/
theorem C6_witness :
    parse_status (PyVal.dict
        [("homework_name", PyVal.str "hw1"), ("status", PyVal.str "approved")]) =
      Except.ok ("Изменился статус проверки работы \"" ++ "hw1" ++ "\". "
        ++ "Работа проверена: ревьюеру всё понравилось. Ура!") ∧
    verdict_find HOMEWORK_STATUSES "approved" =
      some "Работа проверена: ревьюеру всё понравилось. Ура!" ∧
    verdict_find HOMEWORK_STATUSES "reviewing" =
      some "Работа взята на проверку ревьюером." ∧
    verdict_find HOMEWORK_STATUSES "rejected" =
      some "Работа проверена: у ревьюера есть замечания." :=
  C6_message_composition
    [("homework_name", PyVal.str "hw1"), ("status", PyVal.str "approved")]
    "hw1" "approved" "Работа проверена: ревьюеру всё понравилось. Ура!" rfl rfl rfl

/-- C10: a dict record with a recognized status but no `homework_name` key
does not make `parse_status` raise a missing-key error: `.get` defaults to
`None`, the dead `except` guard clauses cannot fire, and the returned
message renders the name as `None`. -/
theorem C10_missing_name_renders_None (kvs : List (String × PyVal)) (s verdict : String)
    (hn : dict_find kvs "homework_name" = Option.none)
    (hs : dict_get kvs "status" = PyVal.str s)
    (hv : verdict_find HOMEWORK_STATUSES s = some verdict) :
    parse_status (PyVal.dict kvs) =
      Except.ok ("Изменился статус проверки работы \"None\". " ++ verdict) := by
  have hn2 : dict_get kvs "homework_name" = PyVal.none := by simp [dict_get, hn]
  have hstr : py_str PyVal.none = "None" := rfl
  simp [parse_status, hn2, hs, homework_statuses_get, hv, hstr]

/-- C10 witness: the record `{"status": "approved"}`. -/
theorem C10_witness :
    parse_status (PyVal.dict [("status", PyVal.str "approved")]) =
      Except.ok ("Изменился статус проверки работы \"None\". "
        ++ "Работа проверена: ревьюеру всё понравилось. Ура!") :=
  C10_missing_name_renders_None [("status", PyVal.str "approved")]
    "approved" "Работа проверена: ревьюеру всё понравилось. Ура!" rfl rfl rfl

/-- C3: `check_response` returns the `homeworks` list unchanged exactly for
payloads that are a dict whose `homeworks` value is a list; a non-dict
payload, a missing `homeworks` key (where `.get` yields `None`) and a
non-list value all raise the corresponding shape TypeError. -/
theorem C3_check_response_shape (response : PyVal) :
    (∀ kvs l, response = PyVal.dict kvs → dict_get kvs "homeworks" = PyVal.list l →
      check_response response = Except.ok l) ∧
    ((∀ kvs, response ≠ PyVal.dict kvs) →
      check_response response =
        Except.error (PyError.typeError "API прислал данные не в виде dict.")) ∧
    (∀ kvs, response = PyVal.dict kvs → (∀ l, dict_get kvs "homeworks" ≠ PyVal.list l) →
      check_response response =
        Except.error (PyError.typeError "По ключу homeworks данные пришли не в виде list.")) ∧
    (∀ l, check_response response = Except.ok l →
      ∃ kvs, response = PyVal.dict kvs ∧ dict_get kvs "homeworks" = PyVal.list l) := by
  refine ⟨?_, ?_, ?_, ?_⟩
  · rintro kvs l rfl hl
    simp [check_response, hl]
  · intro h
    cases response with
    | dict kvs => exact absurd rfl (h kvs)
    | none => rfl
    | int n => rfl
    | str s => rfl
    | list xs => rfl
  · rintro kvs rfl hne
    cases hv : dict_get kvs "homeworks" with
    | list xs => exact absurd hv (hne xs)
    | none => simp [check_response, hv]
    | int n => simp [check_response, hv]
    | str s => simp [check_response, hv]
    | dict kv => simp [check_response, hv]
  · intro l h
    cases response with
    | dict kvs =>
        refine ⟨kvs, rfl, ?_⟩
        cases hv : dict_get kvs "homeworks" with
        | list xs =>
            simp only [check_response, hv, Except.ok.injEq] at h
            rw [h]
        | none => simp [check_response, hv] at h
        | int n => simp [check_response, hv] at h
        | str s => simp [check_response, hv] at h
        | dict kv => simp [check_response, hv] at h
    | none => simp [check_response] at h
    | int n => simp [check_response] at h
    | str s => simp [check_response] at h
    | list xs => simp [check_response] at h

/-- C3 witness: a valid payload, a non-dict payload, and a dict without a
list under `homeworks`. -/
theorem C3_witness :
    check_response (PyVal.dict [("homeworks", PyVal.list [])]) = Except.ok [] ∧
    check_response (PyVal.str "x") =
      Except.error (PyError.typeError "API прислал данные не в виде dict.") ∧
    check_response (PyVal.dict [("current_date", PyVal.int 5)]) =
      Except.error (PyError.typeError "По ключу homeworks данные пришли не в виде list.") :=
  ⟨(C3_check_response_shape (PyVal.dict [("homeworks", PyVal.list [])])).1
      [("homeworks", PyVal.list [])] [] rfl rfl,
   (C3_check_response_shape (PyVal.str "x")).2.1 (fun _ h => PyVal.noConfusion h),
   (C3_check_response_shape (PyVal.dict [("current_date", PyVal.int 5)])).2.2.1
      [("current_date", PyVal.int 5)] rfl
      (fun l h => by simp [dict_get, dict_find] at h)⟩

/-- C4: `get_api_answer` returns the parsed body exactly on HTTP 200 with
parseable JSON; a 404, any other non-200 status, a network-level failure,
and a 200 with a malformed body all raise instead of returning. -/
theorem C4_get_api_answer_characterization :
    (∀ v, get_api_answer (HttpOutcome.response 200 (Except.ok v)) = Except.ok v) ∧
    (∀ body, is_error (get_api_answer (HttpOutcome.response 404 body)) = true) ∧
    (∀ c body, c ≠ 200 → is_error (get_api_answer (HttpOutcome.response c body)) = true) ∧
    is_error (get_api_answer HttpOutcome.networkFailure) = true ∧
    is_error (get_api_answer (HttpOutcome.response 200 (Except.error ()))) = true ∧
    (∀ c body v, get_api_answer (HttpOutcome.response c body) = Except.ok v →
      c = 200 ∧ body = Except.ok v) := by
  refine ⟨fun v => rfl, fun body => rfl, ?_, rfl, rfl, ?_⟩
  · intro c body hc
    simp only [get_api_answer, if_neg hc]
    by_cases h4 : c = 404
    · simp [h4, is_error]
    · simp [h4, is_error]
  · intro c body v h
    by_cases hc : c = 200
    · subst hc
      cases body with
      | ok w => simpa [get_api_answer] using h
      | error u => simp [get_api_answer] at h
    · have := (fun body => by
        simp only [get_api_answer, if_neg hc]
        by_cases h4 : c = 404
        · simp [h4, is_error]
        · simp [h4, is_error] :
          ∀ body : Except Unit PyVal,
            is_error (get_api_answer (HttpOutcome.response c body)) = true)
      have h2 := this body
      rw [h] at h2
      simp [is_error] at h2

/-- C4 witness: HTTP 500 is rejected, HTTP 200 with a JSON body is
returned. -/
theorem C4_witness :
    is_error (get_api_answer (HttpOutcome.response 500 (Except.ok PyVal.none))) = true ∧
    get_api_answer (HttpOutcome.response 200 (Except.ok (PyVal.dict []))) =
      Except.ok (PyVal.dict []) :=
  ⟨C4_get_api_answer_characterization.2.2.1 500 (Except.ok PyVal.none) (by decide),
   C4_get_api_answer_characterization.1 (PyVal.dict [])⟩

/-- C8: `send_message` never raises — a delivered send logs at info level,
and any exception from the underlying `bot.send_message` call is swallowed
and logged at error level, so the failure never propagates to `main`. -/
theorem C8_send_message_never_raises (message err : String) :
    is_error (send_message message SendOutcome.delivered) = false ∧
    is_error (send_message message (SendOutcome.failed err)) = false ∧
    send_message message (SendOutcome.failed err) =
      Except.ok ⟨LogLevel.error, "Не удалось отправить сообщение: " ++ err ++ "."⟩ ∧
    send_message message SendOutcome.delivered =
      Except.ok ⟨LogLevel.info, "Бот отправил в Telegram сообщение: " ++ message ++ "."⟩ :=
  ⟨rfl, rfl, rfl, rfl⟩

/-- C9: for every exception caught at the iteration boundary, the guard
`error != msg_error` is true (an exception instance never equals the str
`msg_error`), so a failure notification is attempted; and `msg_error` is
never updated, so the guard stays true on every iteration the error
recurs. -/
theorem C9_error_guard_always_notifies (st : IterState) (o : HttpOutcome) (e : PyError)
    (h : (main_iteration st o).caught = some e) :
    exc_ne_str e st.msg_error = true ∧
    ("Произошел сбой: " ++ py_str_exc e) ∈ (main_iteration st o).sent ∧
    (main_iteration st o).state.msg_error = st.msg_error := by
  refine ⟨rfl, ?_, ?_⟩
  · cases hga : get_api_answer o with
    | error e0 =>
        have h2 : e0 = e := by simpa [main_iteration, hga] using h
        subst h2
        simp [main_iteration, hga, exc_ne_str]
    | ok response =>
        cases hcr : check_response response with
        | error e0 =>
            have h2 : e0 = e := by simpa [main_iteration, hga, hcr] using h
            subst h2
            simp [main_iteration, hga, hcr, exc_ne_str]
        | ok homework_list =>
            cases hp : process_homeworks homework_list with
            | ok msgs => simp [main_iteration, hga, hcr, hp] at h
            | error p =>
                rcases p with ⟨msgs, e0⟩
                have h2 : e0 = e := by simpa [main_iteration, hga, hcr, hp] using h
                subst h2
                simp [main_iteration, hga, hcr, hp, exc_ne_str]
  · cases hga : get_api_answer o with
    | error e0 => simp [main_iteration, hga]
    | ok response =>
        cases hcr : check_response response with
        | error e0 => simp [main_iteration, hga, hcr]
        | ok homework_list =>
            cases hp : process_homeworks homework_list with
            | ok msgs => simp [main_iteration, hga, hcr, hp]
            | error p =>
                rcases p with ⟨msgs, e0⟩
                simp [main_iteration, hga, hcr, hp]

/-- C9 witness: a network failure on the first iteration. -/
theorem C9_witness :
    exc_ne_str (PyError.connectionError "Не удалось получить ответ от API") "" = true ∧
    ("Произошел сбой: "
        ++ py_str_exc (PyError.connectionError "Не удалось получить ответ от API")) ∈
      (main_iteration ⟨PyVal.int 0, ""⟩ HttpOutcome.networkFailure).sent ∧
    (main_iteration ⟨PyVal.int 0, ""⟩ HttpOutcome.networkFailure).state.msg_error = "" :=
  C9_error_guard_always_notifies ⟨PyVal.int 0, ""⟩ HttpOutcome.networkFailure
    (PyError.connectionError "Не удалось получить ответ от API") rfl

/-- C1 counterexample: the payload
`{"homeworks": [{"homework_name": "hw1", "status": "approved"}]}` processed
twice consecutively produces a notification on BOTH iterations (the loop
keeps no last-notified status), contradicting "a notification on the first
iteration only". -/
theorem C1_counterexample :
    (main_iteration ⟨PyVal.int 0, ""⟩
        (HttpOutcome.response 200 (Except.ok (PyVal.dict [("homeworks", PyVal.list
          [PyVal.dict [("homework_name", PyVal.str "hw1"),
            ("status", PyVal.str "approved")]])])))).sent =
      ["Изменился статус проверки работы \"hw1\". Работа проверена: ревьюеру всё понравилось. Ура!"] ∧
    (main_iteration
        (main_iteration ⟨PyVal.int 0, ""⟩
          (HttpOutcome.response 200 (Except.ok (PyVal.dict [("homeworks", PyVal.list
            [PyVal.dict [("homework_name", PyVal.str "hw1"),
              ("status", PyVal.str "approved")]])])))).state
        (HttpOutcome.response 200 (Except.ok (PyVal.dict [("homeworks", PyVal.list
          [PyVal.dict [("homework_name", PyVal.str "hw1"),
            ("status", PyVal.str "approved")]])])))).sent =
      ["Изменился статус проверки работы \"hw1\". Работа проверена: ревьюеру всё понравилось. Ура!"] :=
  ⟨rfl, rfl⟩

/-- C1 amended: the loop keeps no last-notified status — for every payload
whose records all parse, a notification is sent for every record on every
iteration in which the payload is processed, independently of the loop
state (so the same payload processed twice notifies twice), and the
skip-with-debug-log occurs exactly when the homeworks list is empty. -/
theorem C1_amended_no_deduplication (st st2 : IterState) (o : HttpOutcome)
    (response : PyVal) (homework_list : List PyVal) (msgs : List String)
    (hga : get_api_answer o = Except.ok response)
    (hcr : check_response response = Except.ok homework_list)
    (hp : process_homeworks homework_list = Except.ok msgs) :
    (main_iteration st o).sent = msgs ∧
    (main_iteration st2 o).sent = msgs ∧
    msgs.length = homework_list.length ∧
    ((main_iteration st o).debug_logged = true ↔ homework_list = []) := by
  refine ⟨?_, ?_, process_homeworks_ok_length homework_list msgs hp, ?_⟩
  · simp [main_iteration, hga, hcr, hp]
  · simp [main_iteration, hga, hcr, hp]
  · simp [main_iteration, hga, hcr, hp, List.length_eq_zero]

/-- C1 amended witness: the `hw1` payload from two different loop states. -/
theorem C1_amended_witness :
    (main_iteration ⟨PyVal.int 7, ""⟩
        (HttpOutcome.response 200 (Except.ok (PyVal.dict [("homeworks", PyVal.list
          [PyVal.dict [("homework_name", PyVal.str "hw1"),
            ("status", PyVal.str "approved")]])])))).sent =
      ["Изменился статус проверки работы \"hw1\". Работа проверена: ревьюеру всё понравилось. Ура!"] ∧
    (main_iteration ⟨PyVal.str "other", ""⟩
        (HttpOutcome.response 200 (Except.ok (PyVal.dict [("homeworks", PyVal.list
          [PyVal.dict [("homework_name", PyVal.str "hw1"),
            ("status", PyVal.str "approved")]])])))).sent =
      ["Изменился статус проверки работы \"hw1\". Работа проверена: ревьюеру всё понравилось. Ура!"] ∧
    (["Изменился статус проверки работы \"hw1\". Работа проверена: ревьюеру всё понравилось. Ура!"] : List String).length =
      ([PyVal.dict [("homework_name", PyVal.str "hw1"),
        ("status", PyVal.str "approved")]] : List PyVal).length ∧
    ((main_iteration ⟨PyVal.int 7, ""⟩
        (HttpOutcome.response 200 (Except.ok (PyVal.dict [("homeworks", PyVal.list
          [PyVal.dict [("homework_name", PyVal.str "hw1"),
            ("status", PyVal.str "approved")]])])))).debug_logged = true ↔
      ([PyVal.dict [("homework_name", PyVal.str "hw1"),
        ("status", PyVal.str "approved")]] : List PyVal) = []) :=
  C1_amended_no_deduplication ⟨PyVal.int 7, ""⟩ ⟨PyVal.str "other", ""⟩
    (HttpOutcome.response 200 (Except.ok (PyVal.dict [("homeworks", PyVal.list
      [PyVal.dict [("homework_name", PyVal.str "hw1"),
        ("status", PyVal.str "approved")]])])))
    (PyVal.dict [("homeworks", PyVal.list
      [PyVal.dict [("homework_name", PyVal.str "hw1"),
        ("status", PyVal.str "approved")]])])
    [PyVal.dict [("homework_name", PyVal.str "hw1"), ("status", PyVal.str "approved")]]
    ["Изменился статус проверки работы \"hw1\". Работа проверена: ревьюеру всё понравилось. Ура!"]
    rfl rfl rfl

/-- C5 counterexample: an environment whose API token is present but EMPTY
passes `check_tokens` (which only tests `is None`) and the loop starts,
contradicting "missing or empty → the credential check fails". -/
theorem C5_counterexample :
    (⟨some "", some "tok", some "chat"⟩ : Env).PRACTICUM_TOKEN = some "" ∧
    check_tokens ⟨some "", some "tok", some "chat"⟩ = true ∧
    main_startup ⟨some "", some "tok", some "chat"⟩ = StartupResult.loopStarted := by
  refine ⟨rfl, rfl, rfl⟩

/-- C5 amended: the credential check fails exactly when some credential
variable is unset (`None`); a present-but-empty value passes.  On failure
the process terminates fatally naming exactly the unset variables; when all
three are set — even to empty strings — the loop starts. -/
theorem C5_amended_credential_check (env : Env) :
    (check_tokens env = false ↔ missing_tokens env ≠ []) ∧
    ("PRACTICUM_TOKEN" ∈ missing_tokens env ↔ env.PRACTICUM_TOKEN = Option.none) ∧
    ("TELEGRAM_TOKEN" ∈ missing_tokens env ↔ env.TELEGRAM_TOKEN = Option.none) ∧
    ("TELEGRAM_CHAT_ID" ∈ missing_tokens env ↔ env.TELEGRAM_CHAT_ID = Option.none) ∧
    (check_tokens env = false → main_startup env = StartupResult.fatal (missing_tokens env)) ∧
    (env.PRACTICUM_TOKEN ≠ Option.none → env.TELEGRAM_TOKEN ≠ Option.none →
      env.TELEGRAM_CHAT_ID ≠ Option.none → main_startup env = StartupResult.loopStarted) := by
  rcases env with ⟨p, tt, c⟩
  cases p <;> cases tt <;> cases c <;>
    simp [check_tokens, missing_tokens, main_startup]

/-- C5 amended witness: two unset variables are reported fatally; an
all-set environment (with one empty value) starts the loop. -/
theorem C5_amended_witness :
    main_startup ⟨Option.none, some "t", Option.none⟩ =
      StartupResult.fatal (missing_tokens ⟨Option.none, some "t", Option.none⟩) ∧
    missing_tokens ⟨Option.none, some "t", Option.none⟩ =
      ["PRACTICUM_TOKEN", "TELEGRAM_CHAT_ID"] ∧
    main_startup ⟨some "", some "t", some "c"⟩ = StartupResult.loopStarted :=
  ⟨(C5_amended_credential_check ⟨Option.none, some "t", Option.none⟩).2.2.2.2.1 (by decide),
   rfl,
   (C5_amended_credential_check ⟨some "", some "t", some "c"⟩).2.2.2.2.2
     (by decide) (by decide) (by decide)⟩

/-- C7 counterexample: a successful fetch of the payload
`{"current_date": 1000}` (no `homeworks` key) leaves the poll cursor at its
previous value 500 — the update line is skipped because `check_response`
raised — contradicting "after each successful fetch the cursor is updated
when `current_date` is present". -/
theorem C7_counterexample :
    get_api_answer (HttpOutcome.response 200
        (Except.ok (PyVal.dict [("current_date", PyVal.int 1000)]))) =
      Except.ok (PyVal.dict [("current_date", PyVal.int 1000)]) ∧
    dict_find [("current_date", PyVal.int 1000)] "current_date" = some (PyVal.int 1000) ∧
    (main_iteration ⟨PyVal.int 500, ""⟩ (HttpOutcome.response 200
        (Except.ok (PyVal.dict [("current_date", PyVal.int 1000)])))).state.current_timestamp =
      PyVal.int 500 ∧
    PyVal.int 500 ≠ PyVal.int 1000 := by
  refine ⟨rfl, rfl, rfl, ?_⟩
  simp

/-- C7 amended: the poll cursor is updated from the payload's
`current_date` (keeping its previous value when the key is absent) only in
iterations where fetch, payload validation and every record's parsing all
succeed; when any of those steps raises — even after a successful fetch —
the cursor is left unchanged. -/
theorem C7_amended_cursor_update (st : IterState) (o : HttpOutcome) :
    (∀ kvs homework_list msgs,
      get_api_answer o = Except.ok (PyVal.dict kvs) →
      check_response (PyVal.dict kvs) = Except.ok homework_list →
      process_homeworks homework_list = Except.ok msgs →
      (main_iteration st o).state.current_timestamp =
        dict_getD kvs "current_date" st.current_timestamp) ∧
    ((main_iteration st o).caught ≠ Option.none →
      (main_iteration st o).state.current_timestamp = st.current_timestamp) ∧
    (∀ kvs v d, dict_find kvs "current_date" = some v →
      dict_getD kvs "current_date" d = v) ∧
    (∀ kvs d, dict_find kvs "current_date" = Option.none →
      dict_getD kvs "current_date" d = d) := by
  refine ⟨?_, ?_, ?_, ?_⟩
  · intro kvs homework_list msgs hga hcr hp
    simp [main_iteration, hga, hcr, hp]
  · intro hc
    cases hga : get_api_answer o with
    | error e0 => simp [main_iteration, hga]
    | ok response =>
        cases hcr : check_response response with
        | error e0 => simp [main_iteration, hga, hcr]
        | ok homework_list =>
            cases hp : process_homeworks homework_list with
            | ok msgs => exact absurd (by simp [main_iteration, hga, hcr, hp]) hc
            | error p =>
                rcases p with ⟨msgs, e0⟩
                simp [main_iteration, hga, hcr, hp]
  · intro kvs v d hf
    simp [dict_getD, hf]
  · intro kvs d hf
    simp [dict_getD, hf]

/-- C7 amended witness: a fully successful iteration updates the cursor to
1000; the failed-validation iteration from the counterexample's payload
leaves it at 500. -/
theorem C7_amended_witness :
    (main_iteration ⟨PyVal.int 500, ""⟩ (HttpOutcome.response 200
        (Except.ok (PyVal.dict [("homeworks", PyVal.list []),
          ("current_date", PyVal.int 1000)])))).state.current_timestamp =
      dict_getD [("homeworks", PyVal.list []), ("current_date", PyVal.int 1000)]
        "current_date" (PyVal.int 500) ∧
    dict_getD [("homeworks", PyVal.list []), ("current_date", PyVal.int 1000)]
      "current_date" (PyVal.int 500) = PyVal.int 1000 ∧
    (main_iteration ⟨PyVal.int 500, ""⟩ (HttpOutcome.response 200
        (Except.ok (PyVal.dict [("current_date", PyVal.int 1000)])))).state.current_timestamp =
      PyVal.int 500 :=
  ⟨(C7_amended_cursor_update ⟨PyVal.int 500, ""⟩ (HttpOutcome.response 200
      (Except.ok (PyVal.dict [("homeworks", PyVal.list []),
        ("current_date", PyVal.int 1000)])))).1
      [("homeworks", PyVal.list []), ("current_date", PyVal.int 1000)] [] [] rfl rfl rfl,
   (C7_amended_cursor_update ⟨PyVal.int 500, ""⟩ (HttpOutcome.response 200
      (Except.ok (PyVal.dict [("homeworks", PyVal.list []),
        ("current_date", PyVal.int 1000)])))).2.2.1
      [("homeworks", PyVal.list []), ("current_date", PyVal.int 1000)]
      (PyVal.int 1000) (PyVal.int 500) rfl,
   (C7_amended_cursor_update ⟨PyVal.int 500, ""⟩ (HttpOutcome.response 200
      (Except.ok (PyVal.dict [("current_date", PyVal.int 1000)])))).2.1
      (by simp [main_iteration, check_response, get_api_answer, dict_get, dict_find])⟩

end HomeworkBot
